import Mathlib

/-
Verification of the specfit spectral-line normalization core
(src/specfit/specdata.py) against its natural-language specification.

Modelling conventions of the shallow embedding:
* Python floats are modelled as real numbers; `np.exp` is `Real.exp`,
  `10 ** x` on floats is real exponentiation, `int(x)` is truncation
  toward zero (`pytrunc`).
* A NaN entry of a partition-function value array is modelled at the
  constructor level as `none : Option ℝ` (the code only ever tests
  NaN-ness of these entries with `np.isnan`, never their value).
* An astropy `Table` is a list of named columns over a `Cell` type
  (a cell is masked, a float, an integer, or a string) plus the
  `meta` dictionary entries the code uses.  `table.mask is not None`
  is the `hasMask` flag.
* Fallible operations (astropy `KeyError`, `ValueError` from
  `list.index`, scipy's rejection of cubic interpolation on fewer
  than 4 points, `IndexError` from `np.unique(...)[0]` on an empty
  column) are modelled with `Except Err`.
* `scipy.interpolate.interp1d(kind="cubic", fill_value="extrapolate")`
  is external library code: it is modelled by its contract (it fails
  unless at least 4 data points are given, and otherwise yields some
  interpolating function of the points).  The interpolation scheme
  itself is an arbitrary parameter `interp`; no claim here depends on
  the actual spline values.
* The network clients (`JPL.query_lines`, `CDMS.query_lines`) and the
  species master-table providers (`JPL.get_species_table`,
  `CDMS.get_species_table`) are out-of-scope collaborators: the raw
  response and the master tables are passed in as explicit values.
  Likewise `ascii.read`: `parse_datafile` receives the already-parsed
  fixed-width table.
* `format_JPL` and `format_CDMS` begin with `self.table = response`,
  which aliases (does not copy) the caller's table; every subsequent
  column removal, rename and in-place arithmetic therefore mutates the
  caller's object.  The embedding passes the table state explicitly:
  the returned table is the post-call state of the very object the
  caller passed in.
-/

noncomputable section

/-- Planck constant in cgs units (erg s), `ac.h.cgs.value`. -/
def h : ℝ := 6.62607015e-27

/-- Speed of light in cgs units (cm/s), `ac.c.cgs.value`. -/
def c : ℝ := 2.99792458e10

/-- Boltzmann constant in cgs units (erg/K), `ac.k_B.cgs.value`. -/
def k_B : ℝ := 1.380649e-16

/-- Embedding of `wavenumber_to_Kelvin` (specdata.py lines 41-42). -/
def wavenumber_to_Kelvin (wavenumber : ℝ) : ℝ :=
  wavenumber * h * c / k_B

/-- Embedding of `logint_to_EinsteinA` (specdata.py lines 45-77):
convert a log10 CDMS/JPL intensity at 300 K (nm2 MHz) to an Einstein A
coefficient, exactly as the code computes it. -/
def logint_to_EinsteinA (logint_300 nu0 gup Elow Q_300 : ℝ) : ℝ :=
  let Elow := wavenumber_to_Kelvin Elow
  let Eup := Elow + h * nu0 * 1e6 / k_B
  let Smu2 :=
    2.40251e4 * (10 : ℝ) ^ logint_300 * Q_300 / nu0 /
      (Real.exp (-Elow / 300) - Real.exp (-Eup / 300))
  1.16395e-20 * nu0 ^ (3 : ℕ) * Smu2 / gup

/-- Written from the specification text of `logIntensityToEinsteinA`
(spec section 4.2), with its four named steps, in order to compare the
implementation against the spec formula. -/
def logIntensityToEinsteinA_spec (logInt300 nu0_MHz gUp ELow_cm1 Q300 : ℝ) : ℝ :=
  let Elow_K := wavenumber_to_Kelvin ELow_cm1
  let Eup_K := Elow_K + h * nu0_MHz * 1e6 / k_B
  let Smu2 :=
    2.40251e4 * (10 : ℝ) ^ logInt300 * Q300 / nu0_MHz /
      (Real.exp (-Elow_K / 300) - Real.exp (-Eup_K / 300))
  1.16395e-20 * nu0_MHz ^ (3 : ℕ) * Smu2 / gUp

/-- Failure modes of the normalization core.  Each constructor records
which concrete Python exception it stands for:
* `indexError`: `IndexError` from `np.unique(col)[0]` on an empty column;
* `speciesNotFound`: the `ValueError` raised when a tag is absent from the
  species master table (explicitly re-raised for JPL, raised by
  `list.index` for CDMS);
* `missingPartitionFunction`: the `ValueError` "Please provide parition
  function (pf) ..." raised when `species` is given without `pf`;
* `insufficientData`: the `ValueError` scipy raises when `interp1d`
  with `kind="cubic"` receives fewer than 4 points;
* `keyError`: astropy `KeyError` on accessing/removing/renaming a column
  that does not exist;
* `unsupportedFormat`: the `ValueError` raised by `parse_datafile` for a
  format other than "JPL"/"CDMS". -/
inductive Err where
  | indexError
  | speciesNotFound
  | missingPartitionFunction
  | insufficientData
  | keyError
  | unsupportedFormat
deriving DecidableEq

/-- An interpolation scheme: from a list of (x, y) points produce a
function of x.  `scipy.interpolate.interp1d(kind="cubic")` is one such
scheme; the development is parametric in it. -/
abbrev Interp := List (ℝ × ℝ) → ℝ → ℝ

/-- Embedding of the object state of class `PartitionFunction`
(specdata.py lines 14-38): the constructor arguments are stored
unfiltered, and `self.function` holds the interpolant built by
`_get_function`. -/
structure PartitionFunction where
  species : String
  T : List ℝ
  Q : List (Option ℝ)
  ntrans : Option (List ℤ)
  function : ℝ → ℝ

/-- The pairs kept by `_get_function`'s boolean-mask filtering
`T[~np.isnan(Q)], Q[~np.isnan(Q)]`: exactly the (temperature, value)
pairs whose value is not NaN. -/
def partition_valid_points (T : List ℝ) (Q : List (Option ℝ)) : List (ℝ × ℝ) :=
  (T.zip Q).filterMap fun p => p.2.map fun q => (p.1, q)

/-- Contract of `scipy.interpolate.interp1d(T, Q, kind="cubic",
fill_value="extrapolate")`: a cubic spline needs at least 4 data points
(scipy raises `ValueError` otherwise), and on success yields an
interpolating function of the given points. -/
def interp1d_cubic (interp : Interp) (pts : List (ℝ × ℝ)) : Except Err (ℝ → ℝ) :=
  if pts.length < 4 then .error .insufficientData else .ok (interp pts)

/-- Embedding of `PartitionFunction.__init__` together with
`_get_function` (specdata.py lines 15-38): store the raw arrays and fit
the interpolant on the NaN-filtered pairs; construction fails when the
interpolation does. -/
def PartitionFunction.build (interp : Interp) (species : String) (T : List ℝ)
    (Q : List (Option ℝ)) (ntrans : Option (List ℤ)) :
    Except Err PartitionFunction :=
  match interp1d_cubic interp (partition_valid_points T Q) with
  | .error e => .error e
  | .ok f => .ok ⟨species, T, Q, ntrans, f⟩

/-- Result of `PartitionFunction.__call__`: the returned value together
with whether the extrapolation warning was printed. -/
structure CallResult where
  value : ℝ
  warned : Bool

/-- Minimum of a nonempty list of reals, as `np.nanmin` computes it on a
NaN-free array (the empty case is unreachable through `build`). -/
def np_nanmin : List ℝ → ℝ
  | [] => 0
  | x :: xs => xs.foldl min x

/-- Maximum of a nonempty list of reals, as `np.nanmax` computes it. -/
def np_nanmax : List ℝ → ℝ
  | [] => 0
  | x :: xs => xs.foldl max x

/-- Embedding of `PartitionFunction.__call__` (specdata.py lines 24-33),
scalar case: the warning is printed exactly when `verbose` is set and the
input temperature lies outside the range of the stored temperature
samples, and the returned value is `self.function(T)` either way. -/
def PartitionFunction.call (pf : PartitionFunction) (T : ℝ) (verbose : Bool) :
    CallResult :=
  { value := pf.function T
    warned := verbose && (decide (T < np_nanmin pf.T) || decide (np_nanmax pf.T < T)) }

/-- A cell of a raw astropy table: either masked, or a float, integer or
string value. -/
inductive Cell where
  | masked
  | real (x : ℝ)
  | int (n : ℤ)
  | str (s : String)

/-- Numeric value of a cell, when it has one (integers are promoted to
floats as numpy does in mixed arithmetic). -/
def Cell.numVal : Cell → Option ℝ
  | .real x => some x
  | .int n => some (n : ℝ)
  | _ => none

/-- Elementwise application of a float function to a numeric column, as
an in-place numpy operation does: masked cells stay masked. -/
def cellMap (fn : ℝ → ℝ) : Cell → Cell
  | .real x => .real (fn x)
  | .int n => .real (fn (n : ℝ))
  | cell => cell

/-- Elementwise binary float operation over two columns; the result is
masked whenever an operand has no numeric value, as numpy mask
propagation does. -/
def cellMap2 (fn : ℝ → ℝ → ℝ) (a b : Cell) : Cell :=
  match a.numVal, b.numVal with
  | some x, some y => .real (fn x y)
  | _, _ => .masked

/-- Elementwise 4-ary float operation over four columns, with the same
mask propagation. -/
def cellMap4 (fn : ℝ → ℝ → ℝ → ℝ → ℝ) (a b cc d : Cell) : Cell :=
  match a.numVal, b.numVal, cc.numVal, d.numVal with
  | some x, some y, some z, some w => .real (fn x y z w)
  | _, _, _, _ => .masked

/-- Four-list zip, for elementwise operations over four columns. -/
def zipWith4 (fn : Cell → Cell → Cell → Cell → Cell) :
    List Cell → List Cell → List Cell → List Cell → List Cell
  | a :: as, b :: bs, cc :: cs, d :: ds => fn a b cc d :: zipWith4 fn as bs cs ds
  | _, _, _, _ => []

/-- The `table.meta` entries the code reads and writes: "Species",
"Partition Function" and "Molecular Weight". -/
structure TableMeta where
  species : Option String
  partitionFunction : Option PartitionFunction
  molecularWeight : Option ℤ

/-- An astropy table: ordered named columns plus metadata.  `hasMask`
models `table.mask is not None`. -/
structure Table where
  hasMask : Bool
  cols : List (String × List Cell)
  meta : TableMeta

/-- Column access by name in an association list of columns. -/
def getPair (name : String) : List (String × List Cell) → Option (List Cell)
  | [] => none
  | p :: ps => if p.1 = name then some p.2 else getPair name ps

/-- Column access `table[name]` that may fail: astropy raises `KeyError`
for a missing column. -/
def Table.getColE (t : Table) (name : String) : Except Err (List Cell) :=
  match getPair name t.cols with
  | none => .error .keyError
  | some cells => .ok cells

/-- Column access as an `Option`, for stating properties of outputs. -/
def Table.getColOpt (t : Table) (name : String) : Option (List Cell) :=
  getPair name t.cols

/-- `table.colnames`. -/
def Table.colNames (t : Table) : List String :=
  t.cols.map Prod.fst

/-- `len(table)`: the number of rows, read off the first column. -/
def Table.numRows (t : Table) : ℕ :=
  match t.cols with
  | [] => 0
  | col :: _ => col.2.length

/-- `table.remove_columns(names)`: astropy raises `KeyError` when one of
the names is absent; otherwise the named columns are removed, preserving
the order of the rest. -/
def Table.removeColumnsE (t : Table) (names : List String) : Except Err Table :=
  if names.all (fun n => (getPair n t.cols).isSome) then
    .ok { t with cols := t.cols.filter (fun p => !(decide (p.1 ∈ names))) }
  else .error .keyError

/-- `table.remove_column(name)`. -/
def Table.removeColumnE (t : Table) (name : String) : Except Err Table :=
  t.removeColumnsE [name]

/-- `table.rename_column(old, new)`: `KeyError` when `old` is absent. -/
def Table.renameColumnE (t : Table) (old new : String) : Except Err Table :=
  if (getPair old t.cols).isSome then
    .ok { t with cols := t.cols.map (fun p => if p.1 = old then (new, p.2) else p) }
  else .error .keyError

/-- `table.add_column(col=data, name=name, index=0)`. -/
def Table.addColumnAt0 (t : Table) (name : String) (data : List Cell) : Table :=
  { t with cols := (name, data) :: t.cols }

/-- `table[name] = data`: replace the data of an existing column in
place. -/
def Table.setCol (t : Table) (name : String) (data : List Cell) : Table :=
  { t with cols := t.cols.map (fun p => if p.1 = name then (p.1, data) else p) }

/-- `table[name] = fn(table[name])`: in-place update of a column. -/
def Table.modifyCol (t : Table) (name : String) (fn : List Cell → List Cell) : Table :=
  { t with cols := t.cols.map (fun p => if p.1 = name then (p.1, fn p.2) else p) }

/-- `np.all(table.mask[col])`: the column is masked in every row (true
also for a zero-row column, as `np.all` of an empty array is). -/
def allMasked (cells : List Cell) : Bool :=
  cells.all fun cell =>
    match cell with
    | .masked => true
    | _ => false

/-- The masked-column cleanup both normalizers start with (specdata.py
lines 135-139 and 222-226): collect the names of the columns that are
masked in every row and remove those columns. -/
def removeFullyMaskedColumns (t : Table) : Table :=
  let masked_columns := (t.cols.filter (fun p => allMasked p.2)).map Prod.fst
  { t with cols := t.cols.filter (fun p => !(decide (p.1 ∈ masked_columns))) }

/-- `np.unique(col)[0]`: `np.unique` sorts the distinct values
ascending, so element 0 is the minimum; on an empty column, indexing
raises `IndexError`. -/
def np_unique_first (cells : List Cell) : Except Err ℝ :=
  match cells.filterMap Cell.numVal with
  | [] => .error .indexError
  | v :: vs => .ok (vs.foldl min v)

/-- Python `int(x)` on a float: truncation toward zero. -/
def pytrunc (x : ℝ) : ℤ :=
  if 0 ≤ x then ⌊x⌋ else ⌈x⌉

/-- Python `list.index`: position of the first occurrence, `ValueError`
(here `none`) when absent. -/
def list_index {α : Type} [DecidableEq α] (a : α) : List α → Option ℕ
  | [] => none
  | x :: xs => if x = a then some 0 else (list_index a xs).map Nat.succ

/-- The JPL species master table (`JPL.get_species_table()`), with the
columns and metadata the code reads: the `TAG` and `NAME` and `NLINE`
columns, the `QLOG...` columns (in table order), and the temperature
grid stored in the table-level metadata `"Temperature (K)"` (in
decreasing-temperature order, like the `QLOG` columns). -/
structure JPLSpeciesTable where
  TAG : List ℤ
  NAME : List String
  NLINE : List ℤ
  QLOG : List (String × List ℝ)
  temperatures : List ℝ

/-- The CDMS species master table (`CDMS.get_species_table()`), with the
columns the code reads: the composite-key `tag` column, the `molecule`
name column, the `#lines` column, and the per-temperature partition
function columns `lg(...)`.  The numeric temperature embedded in each
`lg` column name (`float(k.split("(")[-1].split(")")[0])`) is stored as
the first component. -/
structure CDMSSpeciesTable where
  tag : List ℤ
  molecule : List String
  nlines : List ℤ
  lg : List (ℝ × List ℝ)

/-- Embedding of `SpectroscopicData.read_JPL_partition_function`
(specdata.py lines 102-113): the temperature grid is the reversed
metadata grid, and each `QLOG` entry of the matching row is turned into
`10 ** (float(v) or nan)` — note that a stored value of exactly 0 is
falsy in Python and becomes NaN — with the column order reversed to
increasing temperature. -/
def read_JPL_partition_function (st : JPLSpeciesTable) (tag : ℤ) :
    List ℝ × List (Option ℝ) :=
  let idx := (list_index tag st.TAG).getD 0
  let T := st.temperatures.reverse
  let Q := (st.QLOG.map fun col =>
    let v := col.2.getD idx 0
    if v = 0 then none else some ((10 : ℝ) ^ v)).reverse
  (T, Q)

/-- Embedding of `SpectroscopicData.read_CDMS_partition_function`
(specdata.py lines 115-126): temperatures are parsed out of the `lg`
column names, and each value of the matching row becomes
`10 ** (float(v) or nan)` (a stored 0 is falsy and becomes NaN). -/
def read_CDMS_partition_function (st : CDMSSpeciesTable) (tag : ℤ) :
    List ℝ × List (Option ℝ) :=
  let idx := (list_index tag st.tag).getD 0
  let T := st.lg.map Prod.fst
  let Q := st.lg.map fun col =>
    let v := col.2.getD idx 0
    if v = 0 then none else some ((10 : ℝ) ^ v)
  (T, Q)

/-- The by-tag part of the species stage of `format_JPL` (specdata.py
lines 144-160): the master table row is found by
`species_table["TAG"].tolist().index(tag)` (its absence raises the
"No entries found for species tag ..." `ValueError`), and the partition
function is built from `read_JPL_partition_function` unless one was
caller-supplied. -/
def jpl_resolve_tagged (interp : Interp) (st : JPLSpeciesTable) (tag : ℤ)
    (pf : Option PartitionFunction) : Except Err (String × PartitionFunction) :=
  match list_index tag st.TAG with
  | none => .error Err.speciesNotFound
  | some idx =>
    let name := st.NAME.getD idx ""
    match pf with
    | none =>
      let TQ := read_JPL_partition_function st tag
      (PartitionFunction.build interp name TQ.1 TQ.2 (some st.NLINE)) >>=
        fun pfv => .ok (name, pfv)
    | some pfv => .ok (name, pfv)

/-- The species/partition-function stage of `format_JPL` (specdata.py
lines 140-166): when `species` is not caller-supplied, the tag is
`abs(int(np.unique(table["TAG"])[0]))` and the species is resolved by
`jpl_resolve_tagged`; when `species` is caller-supplied, `pf` must be
supplied too, else the "Please provide parition function (pf) ..."
`ValueError` is raised. -/
def jpl_resolve_stage (interp : Interp) (st : JPLSpeciesTable) (table : Table)
    (species : Option String) (pf : Option PartitionFunction) :
    Except Err (String × PartitionFunction) :=
  match species with
  | none =>
    table.getColE "TAG" >>= fun tagCol =>
    np_unique_first tagCol >>= fun tagraw =>
    jpl_resolve_tagged interp st ((pytrunc tagraw).natAbs : ℤ) pf
  | some name =>
    match pf with
    | none => .error Err.missingPartitionFunction
    | some pfv => .ok (name, pfv)

/-- The column-rewriting stage of `format_JPL` (specdata.py lines
168-214), applied to the (aliased) response table once species and
partition function are known: store the metadata, remove `DR`, `TAG`,
`QNFMT` (and `ERR` when `nofreqerr`), prepend the `Species` column,
convert frequency (and its error) from MHz to GHz by the factor 1e-3,
replace the log-intensity column by Einstein A coefficients computed
with the partition function evaluated at 300 K, replace the lower-state
energy by the upper-state energy in Kelvin, and rename the columns to
the canonical schema. -/
def format_JPL_transform (table : Table) (speciesName : String)
    (pfv : PartitionFunction) (nofreqerr : Bool) : Except Err Table :=
  let table := { table with meta :=
    { table.meta with partitionFunction := some pfv, species := some speciesName } }
  table.removeColumnsE ["DR", "TAG", "QNFMT"] >>= fun table =>
  (if nofreqerr then table.removeColumnE "ERR" else .ok table) >>= fun table =>
  let table := table.addColumnAt0 "Species"
    (List.replicate table.numRows (Cell.str speciesName))
  table.renameColumnE "FREQ" "Frequency" >>= fun table =>
  let table := table.modifyCol "Frequency" (List.map (cellMap fun x => x * 1e-3))
  (if nofreqerr then .ok table else
    table.renameColumnE "ERR" "Frequency Error" >>= fun t =>
    .ok (t.modifyCol "Frequency Error" (List.map (cellMap fun x => x * 1e-3)))) >>=
    fun table =>
  table.renameColumnE "LGINT" "A_ul" >>= fun table =>
  table.getColE "A_ul" >>= fun aulIn =>
  table.getColE "Frequency" >>= fun freqCol =>
  table.getColE "GUP" >>= fun gupCol =>
  table.getColE "ELO" >>= fun eloCol =>
  let Q300 := (pfv.call 300 false).value
  let table := table.setCol "A_ul"
    (zipWith4 (cellMap4 fun lg f g e => logint_to_EinsteinA lg (f * 1e3) g e Q300)
      aulIn freqCol gupCol eloCol)
  table.renameColumnE "ELO" "E_up" >>= fun table =>
  table.getColE "E_up" >>= fun eupIn =>
  table.getColE "Frequency" >>= fun freqCol2 =>
  let table := table.setCol "E_up"
    (List.zipWith (cellMap2 fun e f => wavenumber_to_Kelvin e + h * f * 1e9 / k_B)
      eupIn freqCol2)
  table.renameColumnE "GUP" "g_up"

/-- Embedding of `SpectroscopicData.format_JPL` (specdata.py lines
128-214).  `self.table = response` aliases the caller's table (despite
the "copy for subsequent modification" comment no copy is made), so the
returned table is the caller's object after the call. -/
def format_JPL (interp : Interp) (st : JPLSpeciesTable) (response : Table)
    (species : Option String) (nofreqerr : Bool) (pf : Option PartitionFunction) :
    Except Err Table :=
  let table := response
  let table := if table.hasMask then removeFullyMaskedColumns table else table
  jpl_resolve_stage interp st table species pf >>= fun spv =>
    format_JPL_transform table spv.1 spv.2 nofreqerr

/-- The by-composite-key species lookup of `format_CDMS` (specdata.py
lines 231-233): `species_table["tag"].tolist().index(tag)` raises
`ValueError` when the key is absent, else the species name is the
`molecule` entry of the found row. -/
def cdms_resolve (st : CDMSSpeciesTable) (key : ℤ) : Except Err String :=
  match list_index key st.tag with
  | none => .error Err.speciesNotFound
  | some idx => .ok (st.molecule.getD idx "")

/-- The column-rewriting stage of `format_CDMS` (specdata.py lines
246-283): remove `DR`, `TAG`, `QNFMT`, `MOLWT`, `Lab` (and `ERR` when
`nofreqerr`), prepend a `Species` column copied from the `name` column
and drop `name`, convert frequency (and error) from MHz to GHz by the
factor 1e-3, de-log the `LGAIJ` column into `A_ul = 10 ** LGAIJ`,
replace the lower-state energy by the upper-state energy in Kelvin, and
rename to the canonical schema. -/
def format_CDMS_transform (table : Table) (nofreqerr : Bool) : Except Err Table :=
  table.removeColumnsE ["DR", "TAG", "QNFMT", "MOLWT", "Lab"] >>= fun table =>
  (if nofreqerr then table.removeColumnE "ERR" else .ok table) >>= fun table =>
  table.getColE "name" >>= fun nameCol =>
  let table := table.addColumnAt0 "Species" nameCol
  table.removeColumnE "name" >>= fun table =>
  table.renameColumnE "FREQ" "Frequency" >>= fun table =>
  let table := table.modifyCol "Frequency" (List.map (cellMap fun x => x * 1e-3))
  (if nofreqerr then .ok table else
    table.renameColumnE "ERR" "Frequency Error" >>= fun t =>
    .ok (t.modifyCol "Frequency Error" (List.map (cellMap fun x => x * 1e-3)))) >>=
    fun table =>
  table.renameColumnE "LGAIJ" "A_ul" >>= fun table =>
  let table := table.modifyCol "A_ul" (List.map (cellMap fun x => (10 : ℝ) ^ x))
  table.renameColumnE "ELO" "E_up" >>= fun table =>
  table.getColE "E_up" >>= fun eupIn =>
  table.getColE "Frequency" >>= fun freqCol =>
  let table := table.setCol "E_up"
    (List.zipWith (cellMap2 fun e f => wavenumber_to_Kelvin e + h * f * 1e9 / k_B)
      eupIn freqCol)
  table.renameColumnE "GUP" "g_up"

/-- The part of `format_CDMS` after the lookup key has been computed
(specdata.py lines 231-283): resolve the species by the composite key
against the master table's `tag` column, store species and molecular
weight metadata, build the partition function from the master-table row
(its failure aborts the call), store it, and rewrite the columns. -/
def format_CDMS_resolved (interp : Interp) (st : CDMSSpeciesTable) (table : Table)
    (molweight : ℤ) (key : ℤ) (nofreqerr : Bool) : Except Err Table :=
  cdms_resolve st key >>= fun speciesName =>
  let table := { table with meta :=
    { table.meta with species := some speciesName, molecularWeight := some molweight } }
  let TQ := read_CDMS_partition_function st key
  (PartitionFunction.build interp speciesName TQ.1 TQ.2 (some st.nlines)) >>=
    fun pfv =>
  let table := { table with meta := { table.meta with partitionFunction := some pfv } }
  format_CDMS_transform table nofreqerr

/-- Embedding of `SpectroscopicData.format_CDMS` (specdata.py lines
216-283).  As for JPL, `self.table = response` aliases the caller's
table.  The molecular weight is `int(np.unique(table["MOLWT"])[0])` and
the composite lookup key is
`int(molweight * 1e3 + abs(int(np.unique(table["TAG"])[0])))`, computed
in float arithmetic and truncated back to an integer. -/
def format_CDMS (interp : Interp) (st : CDMSSpeciesTable) (response : Table)
    (nofreqerr : Bool) : Except Err Table :=
  let table := response
  let table := if table.hasMask then removeFullyMaskedColumns table else table
  table.getColE "MOLWT" >>= fun molCol =>
  np_unique_first molCol >>= fun molraw =>
  let molweight : ℤ := pytrunc molraw
  table.getColE "TAG" >>= fun tagCol =>
  np_unique_first tagCol >>= fun tagraw =>
  let key : ℤ := pytrunc ((molweight : ℝ) * 1e3 + (((pytrunc tagraw).natAbs : ℤ) : ℝ))
  format_CDMS_resolved interp st table molweight key nofreqerr

/-- Embedding of `SpectroscopicData.parse_datafile` (specdata.py lines
328-393).  The fixed-width `ascii.read` step is the external reader: the
embedding receives its output table directly.  For `format="JPL"` the
caller-supplied `species` and `pf` are forwarded; for `format="CDMS"`
they are silently dropped, since `format_CDMS` takes neither; any other
format raises the "``format'' should be either ..." `ValueError`. -/
def parse_datafile (interp : Interp) (stJ : JPLSpeciesTable)
    (stC : CDMSSpeciesTable) (response : Table) (format : String)
    (species : Option String) (pf : Option PartitionFunction) :
    Except Err Table :=
  if format = "JPL" then format_JPL interp stJ response species false pf
  else if format = "CDMS" then format_CDMS interp stC response false
  else .error Err.unsupportedFormat

/-- A raw JPL-format response with the standard column layout (the
`names` tuple of `parse_datafile`, also the layout of a JPL query
response): `FREQ, ERR, LGINT, DR, ELO, GUP, TAG, QNFMT, QN', QN"`,
with arbitrary per-column data and no mask. -/
def stdJPLTable (freq err lgint dr elo gup tag qnfmt qn1 qn2 : List Cell) : Table :=
  { hasMask := false
    cols := [("FREQ", freq), ("ERR", err), ("LGINT", lgint), ("DR", dr),
             ("ELO", elo), ("GUP", gup), ("TAG", tag), ("QNFMT", qnfmt),
             ("QN\x27", qn1), ("QN\x22", qn2)]
    meta := { species := none, partitionFunction := none, molecularWeight := none } }

/-- A raw CDMS-format response with the columns `format_CDMS` consumes
(the astroquery CDMS query layout with `temperature_for_intensity=0`,
quantum-number columns omitted for brevity — they are carried through
untouched): `FREQ, ERR, LGAIJ, DR, ELO, GUP, MOLWT, TAG, QNFMT, name,
Lab`, with arbitrary per-column data and no mask. -/
def stdCDMSTable (freq err lgaij dr elo gup molwt tag qnfmt nameCol lab :
    List Cell) : Table :=
  { hasMask := false
    cols := [("FREQ", freq), ("ERR", err), ("LGAIJ", lgaij), ("DR", dr),
             ("ELO", elo), ("GUP", gup), ("MOLWT", molwt), ("TAG", tag),
             ("QNFMT", qnfmt), ("name", nameCol), ("Lab", lab)]
    meta := { species := none, partitionFunction := none, molecularWeight := none } }

/-- The table `format_JPL` produces from a standard JPL response (with
the frequency-error column retained), expressed from the input columns:
this is the caller's table object after the call. -/
def jplOut (name : String) (pfv : PartitionFunction)
    (freq err lgint elo gup qn1 qn2 : List Cell) : Table :=
  let freqG := freq.map (cellMap fun x => x * 1e-3)
  let Q300 := (pfv.call 300 false).value
  { hasMask := false
    cols := [("Species", List.replicate freq.length (Cell.str name)),
             ("Frequency", freqG),
             ("Frequency Error", err.map (cellMap fun x => x * 1e-3)),
             ("A_ul", zipWith4
               (cellMap4 fun lg f g e => logint_to_EinsteinA lg (f * 1e3) g e Q300)
               lgint freqG gup elo),
             ("E_up", List.zipWith
               (cellMap2 fun e f => wavenumber_to_Kelvin e + h * f * 1e9 / k_B)
               elo freqG),
             ("g_up", gup),
             ("QN\x27", qn1), ("QN\x22", qn2)]
    meta := { species := some name, partitionFunction := some pfv,
              molecularWeight := none } }

/-- The table `format_CDMS` produces from a standard CDMS response (with
the frequency-error column retained), expressed from the input columns:
this is the caller's table object after the call. -/
def cdmsOut (name : String) (molweight : ℤ) (pfv : PartitionFunction)
    (freq err lgaij elo gup nameCol : List Cell) : Table :=
  let freqG := freq.map (cellMap fun x => x * 1e-3)
  { hasMask := false
    cols := [("Species", nameCol),
             ("Frequency", freqG),
             ("Frequency Error", err.map (cellMap fun x => x * 1e-3)),
             ("A_ul", lgaij.map (cellMap fun x => (10 : ℝ) ^ x)),
             ("E_up", List.zipWith
               (cellMap2 fun e f => wavenumber_to_Kelvin e + h * f * 1e9 / k_B)
               elo freqG),
             ("g_up", gup)]
    meta := { species := some name, partitionFunction := some pfv,
              molecularWeight := some molweight } }

/-- A trivial interpolation scheme, used to instantiate the `interp`
parameter on concrete example runs (no claim depends on the actual
spline values). -/
def interp0 : Interp := fun _ _ => 0

/-- A caller-supplied partition function object for example runs. -/
def pf0 : PartitionFunction :=
  ⟨"X", [9.375, 18.75, 37.5, 75], [some 1, some 2, some 3, some 4], none,
    fun _ => 100⟩

/-- A partition function whose stored temperature samples are used to
exercise the extrapolation-warning bounds. -/
def pf1 : PartitionFunction :=
  ⟨"w", [250, 275, 300.5, 400], [some 10, some 11, some 12, some 13], none,
    fun x => x + 1⟩

/-- A small JPL species master table for example runs. -/
def stJ0 : JPLSpeciesTable :=
  { TAG := [44009]
    NAME := ["PH3"]
    NLINE := [100]
    QLOG := [("QLOG1", [3.1]), ("QLOG2", [2.8]), ("QLOG3", [2.4]),
             ("QLOG4", [2.0]), ("QLOG5", [1.5]), ("QLOG6", [1.0]),
             ("QLOG7", [0.5])]
    temperatures := [300, 225, 150, 75, 37.5, 18.75, 9.375] }

/-- A small CDMS species master table for example runs; the composite
key 41505 stands for molecular weight 41 and tag 505. -/
def stC0 : CDMSSpeciesTable :=
  { tag := [41505]
    molecule := ["CH3CN"]
    nlines := [10]
    lg := [(300, [3.1]), (225, [2.9]), (150, [2.5]), (75, [2.0])] }

/-- Columns of a one-row JPL response used in example runs. -/
def jplF0 : List Cell := [Cell.real 100000]

/-- Frequency-error column of the one-row JPL example response. -/
def jplE0 : List Cell := [Cell.real 0.5]

/-- Log-intensity column of the one-row JPL example response. -/
def jplLG0 : List Cell := [Cell.real (-5)]

/-- Degrees-of-freedom column of the one-row JPL example response. -/
def jplDR0 : List Cell := [Cell.int 2]

/-- Lower-state-energy column of the one-row JPL example response. -/
def jplELO0 : List Cell := [Cell.real 10]

/-- Upper-state-degeneracy column of the one-row JPL example response. -/
def jplGUP0 : List Cell := [Cell.int 3]

/-- Tag column of the one-row JPL example response. -/
def jplTAG0 : List Cell := [Cell.int 44009]

/-- Quantum-number-format column of the one-row JPL example response. -/
def jplQN0 : List Cell := [Cell.int 303]

/-- First quantum-number column of the one-row JPL example response. -/
def jplQ10 : List Cell := [Cell.str "1"]

/-- Second quantum-number column of the one-row JPL example response. -/
def jplQ20 : List Cell := [Cell.str "0"]

/-- The one-row JPL example response table. -/
def jplT0 : Table :=
  stdJPLTable jplF0 jplE0 jplLG0 jplDR0 jplELO0 jplGUP0 jplTAG0 jplQN0 jplQ10 jplQ20

/-- Columns of a one-row CDMS response used in example runs. -/
def cF0 : List Cell := [Cell.real 91987.0]

/-- Frequency-error column of the one-row CDMS example response. -/
def cE0 : List Cell := [Cell.real 0.1]

/-- Log-Einstein-A column of the one-row CDMS example response. -/
def cLG0 : List Cell := [Cell.real (-4.2)]

/-- Degrees-of-freedom column of the one-row CDMS example response. -/
def cDR0 : List Cell := [Cell.int 3]

/-- Lower-state-energy column of the one-row CDMS example response. -/
def cELO0 : List Cell := [Cell.real 0]

/-- Upper-state-degeneracy column of the one-row CDMS example response. -/
def cGUP0 : List Cell := [Cell.int 5]

/-- Molecular-weight column of the one-row CDMS example response. -/
def cMW0 : List Cell := [Cell.int 41]

/-- Tag column of the one-row CDMS example response. -/
def cTAG0 : List Cell := [Cell.int 505]

/-- Quantum-number-format column of the one-row CDMS example response. -/
def cQN0 : List Cell := [Cell.int 303]

/-- Name column of the one-row CDMS example response. -/
def cNM0 : List Cell := [Cell.str "CH3CN"]

/-- Lab column of the one-row CDMS example response. -/
def cLAB0 : List Cell := [Cell.int 0]

/-- The one-row CDMS example response table. -/
def cdmsT0 : Table :=
  stdCDMSTable cF0 cE0 cLG0 cDR0 cELO0 cGUP0 cMW0 cTAG0 cQN0 cNM0 cLAB0

/-- The partition-function seed data read from the CDMS example master
table at key 41505. -/
def cTQ0 : List ℝ × List (Option ℝ) := read_CDMS_partition_function stC0 41505

/-- The partition function `format_CDMS` builds on the example run. -/
def pfC0 : PartitionFunction :=
  ⟨"CH3CN", cTQ0.1, cTQ0.2, some stC0.nlines,
    interp0 (partition_valid_points cTQ0.1 cTQ0.2)⟩

/-- A masked table used to exercise the fully-masked-column cleanup. -/
def maskT0 : Table :=
  { hasMask := true
    cols := [("A", [Cell.masked, Cell.masked]), ("B", [Cell.real 1, Cell.masked])]
    meta := { species := none, partitionFunction := none, molecularWeight := none } }

/-- Inversion principle for a successful `Except` bind. -/
theorem except_bind_eq_ok {ε α β : Type} {e : Except ε α} {f : α → Except ε β}
    {b : β} : e >>= f = .ok b ↔ ∃ a, e = .ok a ∧ f a = .ok b := by
  cases e with
  | error e => simp [Bind.bind, Except.bind]
  | ok a => simp [Bind.bind, Except.bind]

/-- Python `int()` of a float that is exactly an integer gives back that
integer. -/
theorem pytrunc_intCast (m : ℤ) : pytrunc ((m : ℤ) : ℝ) = m := by
  unfold pytrunc
  split
  · exact Int.floor_intCast m
  · exact Int.ceil_intCast m

/-- The float computation `int(w * 1e3 + a)` on integers `w`, `a` is
exactly `w * 1000 + a`. -/
theorem cdms_key_eval (w a : ℤ) :
    pytrunc ((w : ℝ) * 1e3 + ((a : ℤ) : ℝ)) = w * 1000 + a := by
  have hcast : (w : ℝ) * 1e3 + ((a : ℤ) : ℝ) = ((w * 1000 + a : ℤ) : ℝ) := by
    push_cast
    norm_num
  rw [hcast, pytrunc_intCast]

/-- Numeric values of a constant integer column. -/
theorem filterMap_numVal_replicate (n : ℕ) (t : ℤ) :
    (List.replicate n (Cell.int t)).filterMap Cell.numVal
      = List.replicate n ((t : ℤ) : ℝ) := by
  induction n with
  | zero => rfl
  | succ k ih => simp [List.replicate_succ, Cell.numVal, ih]

/-- Folding `min` over a constant list is the constant. -/
theorem foldl_min_replicate (x : ℝ) (n : ℕ) :
    List.foldl min x (List.replicate n x) = x := by
  induction n with
  | zero => rfl
  | succ k ih => simp [List.replicate_succ, min_self, ih]

/-- `np.unique(col)[0]` of a nonempty constant integer column is that
integer (as a float). -/
theorem np_unique_first_replicate (n : ℕ) (t : ℤ) :
    np_unique_first (List.replicate (n + 1) (Cell.int t)) = .ok ((t : ℤ) : ℝ) := by
  unfold np_unique_first
  rw [filterMap_numVal_replicate, List.replicate_succ]
  show Except.ok (List.foldl min ((t : ℤ) : ℝ) (List.replicate n ((t : ℤ) : ℝ))) = _
  rw [foldl_min_replicate]

/-- Python `list.index` fails exactly on absent elements. -/
theorem list_index_eq_none {α : Type} [DecidableEq α] {a : α} {l : List α}
    (hmem : a ∉ l) : list_index a l = none := by
  induction l with
  | nil => rfl
  | cons x xs ih =>
    have hx : ¬(x = a) := by
      rintro rfl
      exact hmem (List.mem_cons_self x xs)
    have hxs : a ∉ xs := fun hin => hmem (List.mem_cons_of_mem x hin)
    unfold list_index
    rw [if_neg hx, ih hxs]
    rfl

set_option maxHeartbeats 2000000 in
/-- Evaluation of the `format_JPL` column-rewriting stage on a standard
JPL response, with the frequency-error column retained. -/
theorem format_JPL_transform_eval (nm : String) (pfv : PartitionFunction)
    (freq err lgint dr elo gup tag qnfmt qn1 qn2 : List Cell) :
    format_JPL_transform (stdJPLTable freq err lgint dr elo gup tag qnfmt qn1 qn2)
      nm pfv false
      = .ok (jplOut nm pfv freq err lgint elo gup qn1 qn2) := rfl

/-- On a standard JPL response with caller-supplied species and
partition function, `format_JPL` succeeds and produces exactly the
canonical output table. -/
theorem format_JPL_supplied (interp : Interp) (st : JPLSpeciesTable)
    (nm : String) (pfv : PartitionFunction)
    (freq err lgint dr elo gup tag qnfmt qn1 qn2 : List Cell) :
    format_JPL interp st (stdJPLTable freq err lgint dr elo gup tag qnfmt qn1 qn2)
      (some nm) false (some pfv)
      = .ok (jplOut nm pfv freq err lgint elo gup qn1 qn2) := by
  have hstep : format_JPL interp st
      (stdJPLTable freq err lgint dr elo gup tag qnfmt qn1 qn2)
      (some nm) false (some pfv)
      = format_JPL_transform
          (stdJPLTable freq err lgint dr elo gup tag qnfmt qn1 qn2) nm pfv false := rfl
  rw [hstep, format_JPL_transform_eval]

/-- Inversion of a successful `format_JPL` run on a standard JPL
response: the output is the canonical table for the resolved species and
partition function. -/
theorem format_JPL_std_ok {interp : Interp} {st : JPLSpeciesTable}
    {freq err lgint dr elo gup tag qnfmt qn1 qn2 : List Cell}
    {sp : Option String} {pfq : Option PartitionFunction} {out : Table}
    (hok : format_JPL interp st
      (stdJPLTable freq err lgint dr elo gup tag qnfmt qn1 qn2) sp false pfq
      = .ok out) :
    ∃ nm pfv,
      jpl_resolve_stage interp st
        (stdJPLTable freq err lgint dr elo gup tag qnfmt qn1 qn2) sp pfq
        = .ok (nm, pfv) ∧
      out = jplOut nm pfv freq err lgint elo gup qn1 qn2 := by
  have hbind : jpl_resolve_stage interp st
      (stdJPLTable freq err lgint dr elo gup tag qnfmt qn1 qn2) sp pfq >>=
      (fun spv => format_JPL_transform
        (stdJPLTable freq err lgint dr elo gup tag qnfmt qn1 qn2)
        spv.1 spv.2 false) = .ok out := hok
  rw [except_bind_eq_ok] at hbind
  obtain ⟨spv, hres, htr⟩ := hbind
  rw [format_JPL_transform_eval] at htr
  exact ⟨spv.1, spv.2, hres, ((Except.ok.injEq _ _) ▸ htr).symm⟩

set_option maxHeartbeats 2000000 in
/-- Evaluation of the `format_CDMS` column-rewriting stage on a standard
CDMS response whose metadata has been filled in, with the
frequency-error column retained. -/
theorem format_CDMS_transform_eval (nm : String) (mw : ℤ)
    (pfv : PartitionFunction)
    (freq err lgaij dr elo gup molwt tag qnfmt nameCol lab : List Cell) :
    format_CDMS_transform
      ({ stdCDMSTable freq err lgaij dr elo gup molwt tag qnfmt nameCol lab with
         meta := { species := some nm, partitionFunction := some pfv,
                   molecularWeight := some mw } }) false
      = .ok (cdmsOut nm mw pfv freq err lgaij elo gup nameCol) := rfl

/-- Inversion of a successful `format_CDMS` run on a standard CDMS
response: the output is the canonical table for the resolved species,
molecular weight and built partition function. -/
theorem format_CDMS_std_ok {interp : Interp} {st : CDMSSpeciesTable}
    {freq err lgaij dr elo gup molwt tag qnfmt nameCol lab : List Cell}
    {out : Table}
    (hok : format_CDMS interp st
      (stdCDMSTable freq err lgaij dr elo gup molwt tag qnfmt nameCol lab) false
      = .ok out) :
    ∃ nm mw pfv,
      out = cdmsOut nm mw pfv freq err lgaij elo gup nameCol := by
  have hbind : np_unique_first molwt >>= (fun molraw =>
      np_unique_first tag >>= (fun tagraw =>
        format_CDMS_resolved interp st
          (stdCDMSTable freq err lgaij dr elo gup molwt tag qnfmt nameCol lab)
          (pytrunc molraw)
          (pytrunc (((pytrunc molraw : ℤ) : ℝ) * 1e3 +
            (((pytrunc tagraw).natAbs : ℤ) : ℝ)))
          false)) = .ok out := hok
  rw [except_bind_eq_ok] at hbind
  obtain ⟨molraw, _, hbind⟩ := hbind
  rw [except_bind_eq_ok] at hbind
  obtain ⟨tagraw, _, hbind⟩ := hbind
  have hres : cdms_resolve st
      (pytrunc (((pytrunc molraw : ℤ) : ℝ) * 1e3 +
        (((pytrunc tagraw).natAbs : ℤ) : ℝ))) >>= (fun nm =>
      (PartitionFunction.build interp nm
        (read_CDMS_partition_function st
          (pytrunc (((pytrunc molraw : ℤ) : ℝ) * 1e3 +
            (((pytrunc tagraw).natAbs : ℤ) : ℝ)))).1
        (read_CDMS_partition_function st
          (pytrunc (((pytrunc molraw : ℤ) : ℝ) * 1e3 +
            (((pytrunc tagraw).natAbs : ℤ) : ℝ)))).2
        (some st.nlines)) >>= (fun pfv =>
        format_CDMS_transform
          ({ stdCDMSTable freq err lgaij dr elo gup molwt tag qnfmt nameCol lab with
             meta := { species := some nm, partitionFunction := some pfv,
                       molecularWeight := some (pytrunc molraw) } }) false))
      = .ok out := hbind
  rw [except_bind_eq_ok] at hres
  obtain ⟨nm, _, hres⟩ := hres
  rw [except_bind_eq_ok] at hres
  obtain ⟨pfv, _, hres⟩ := hres
  rw [format_CDMS_transform_eval] at hres
  exact ⟨nm, pytrunc molraw, pfv, ((Except.ok.injEq _ _) ▸ hres).symm⟩

/-- Binding a successful `Except` computation applies the continuation. -/
theorem except_ok_bind {ε α β : Type} (a : α) (f : α → Except ε β) :
    (Except.ok a : Except ε α) >>= f = f a := rfl

/-- On a standard CDMS response whose `MOLWT` column constantly holds
the integer `w` and whose `TAG` column constantly holds the integer `t`,
`format_CDMS` proceeds with the composite lookup key `w * 1000 + |t|`. -/
theorem format_CDMS_key_lemma (interp : Interp) (st : CDMSSpeciesTable)
    (freq err lgaij dr elo gup qnfmt nameCol lab : List Cell)
    (n m : ℕ) (w t : ℤ) (nofreqerr : Bool) :
    format_CDMS interp st
      (stdCDMSTable freq err lgaij dr elo gup
        (List.replicate (n + 1) (Cell.int w)) (List.replicate (m + 1) (Cell.int t))
        qnfmt nameCol lab) nofreqerr
    = format_CDMS_resolved interp st
        (stdCDMSTable freq err lgaij dr elo gup
          (List.replicate (n + 1) (Cell.int w)) (List.replicate (m + 1) (Cell.int t))
          qnfmt nameCol lab)
        w (w * 1000 + (t.natAbs : ℤ)) nofreqerr := by
  have hstep : format_CDMS interp st
      (stdCDMSTable freq err lgaij dr elo gup
        (List.replicate (n + 1) (Cell.int w)) (List.replicate (m + 1) (Cell.int t))
        qnfmt nameCol lab) nofreqerr
      = np_unique_first (List.replicate (n + 1) (Cell.int w)) >>= (fun molraw =>
        np_unique_first (List.replicate (m + 1) (Cell.int t)) >>= (fun tagraw =>
          format_CDMS_resolved interp st
            (stdCDMSTable freq err lgaij dr elo gup
              (List.replicate (n + 1) (Cell.int w))
              (List.replicate (m + 1) (Cell.int t)) qnfmt nameCol lab)
            (pytrunc molraw)
            (pytrunc (((pytrunc molraw : ℤ) : ℝ) * 1e3 +
              (((pytrunc tagraw).natAbs : ℤ) : ℝ)))
            nofreqerr)) := rfl
  rw [hstep, np_unique_first_replicate, except_ok_bind,
    np_unique_first_replicate, except_ok_bind]
  simp only [pytrunc_intCast]
  rw [cdms_key_eval]

/-- When the composite key is absent from the master table, the
by-composite-key resolution of `format_CDMS` fails. -/
theorem format_CDMS_resolved_absent (interp : Interp) (st : CDMSSpeciesTable)
    (table : Table) (mw key : ℤ) (nofreqerr : Bool) (habs : key ∉ st.tag) :
    format_CDMS_resolved interp st table mw key nofreqerr
      = .error Err.speciesNotFound := by
  have hres : cdms_resolve st key = .error Err.speciesNotFound := by
    unfold cdms_resolve
    rw [list_index_eq_none habs]
  unfold format_CDMS_resolved
  rw [hres]
  rfl

/-- When the (absolute, truncated) tag of a standard JPL response with a
constant integer tag column is absent from the master table, the by-tag
resolution of `format_JPL` fails. -/
theorem format_JPL_absent_tag (interp : Interp) (st : JPLSpeciesTable)
    (freq err lgint dr elo gup qnfmt qn1 qn2 : List Cell) (n : ℕ) (t : ℤ)
    (pfq : Option PartitionFunction) (nofreqerr : Bool)
    (habs : ((t.natAbs : ℤ)) ∉ st.TAG) :
    format_JPL interp st
      (stdJPLTable freq err lgint dr elo gup (List.replicate (n + 1) (Cell.int t))
        qnfmt qn1 qn2) none nofreqerr pfq
      = .error Err.speciesNotFound := by
  have hres : jpl_resolve_stage interp st
      (stdJPLTable freq err lgint dr elo gup (List.replicate (n + 1) (Cell.int t))
        qnfmt qn1 qn2) none pfq = .error Err.speciesNotFound := by
    have hstep : jpl_resolve_stage interp st
        (stdJPLTable freq err lgint dr elo gup
          (List.replicate (n + 1) (Cell.int t)) qnfmt qn1 qn2) none pfq
        = np_unique_first (List.replicate (n + 1) (Cell.int t)) >>= (fun tagraw =>
            jpl_resolve_tagged interp st ((pytrunc tagraw).natAbs : ℤ) pfq) := rfl
    rw [hstep, np_unique_first_replicate, except_ok_bind]
    show jpl_resolve_tagged interp st ((pytrunc ((t : ℤ) : ℝ)).natAbs : ℤ) pfq
      = Except.error Err.speciesNotFound
    rw [pytrunc_intCast]
    unfold jpl_resolve_tagged
    rw [list_index_eq_none habs]
  have hbind : format_JPL interp st
      (stdJPLTable freq err lgint dr elo gup (List.replicate (n + 1) (Cell.int t))
        qnfmt qn1 qn2) none nofreqerr pfq
      = jpl_resolve_stage interp st
          (stdJPLTable freq err lgint dr elo gup
            (List.replicate (n + 1) (Cell.int t)) qnfmt qn1 qn2) none pfq >>=
          (fun spv => format_JPL_transform
            (stdJPLTable freq err lgint dr elo gup
              (List.replicate (n + 1) (Cell.int t)) qnfmt qn1 qn2)
            spv.1 spv.2 nofreqerr) := rfl
  rw [hbind, hres]
  rfl

/-- The NaN-filtered partition-function sample of the CDMS example
master table has exactly 4 points. -/
theorem cdms_valid_len : (partition_valid_points cTQ0.1 cTQ0.2).length = 4 := by
  norm_num [cTQ0, read_CDMS_partition_function, stC0, partition_valid_points,
    list_index, List.filterMap_cons]

/-- The partition-function construction of the CDMS example run
succeeds and yields `pfC0`. -/
theorem cdms_build_eval :
    PartitionFunction.build interp0 "CH3CN"
      (read_CDMS_partition_function stC0 41505).1
      (read_CDMS_partition_function stC0 41505).2
      (some stC0.nlines) = .ok pfC0 := by
  show PartitionFunction.build interp0 "CH3CN" cTQ0.1 cTQ0.2 (some stC0.nlines)
    = .ok pfC0
  unfold PartitionFunction.build interp1d_cubic
  rw [cdms_valid_len]
  rfl

/-- The complete CDMS example run: `format_CDMS` succeeds on the one-row
response and produces the canonical output table. -/
theorem cdms_run0 :
    format_CDMS interp0 stC0 cdmsT0 false
      = .ok (cdmsOut "CH3CN" 41 pfC0 cF0 cE0 cLG0 cELO0 cGUP0 cNM0) := by
  have hkey : format_CDMS interp0 stC0 cdmsT0 false
      = format_CDMS_resolved interp0 stC0 cdmsT0 41
          ((41 : ℤ) * 1000 + (((505 : ℤ).natAbs : ℤ))) false :=
    format_CDMS_key_lemma interp0 stC0 cF0 cE0 cLG0 cDR0 cELO0 cGUP0 cQN0 cNM0
      cLAB0 0 0 41 505 false
  have h505 : (41 : ℤ) * 1000 + (((505 : ℤ).natAbs : ℤ)) = 41505 := by norm_num
  rw [hkey, h505]
  have hresolved : format_CDMS_resolved interp0 stC0 cdmsT0 41 41505 false
      = (PartitionFunction.build interp0 "CH3CN"
          (read_CDMS_partition_function stC0 41505).1
          (read_CDMS_partition_function stC0 41505).2
          (some stC0.nlines)) >>= (fun pfv =>
        format_CDMS_transform
          ({ stdCDMSTable cF0 cE0 cLG0 cDR0 cELO0 cGUP0 cMW0 cTAG0 cQN0 cNM0 cLAB0
             with meta := { species := some "CH3CN", partitionFunction := some pfv,
                            molecularWeight := some 41 } }) false) := rfl
  rw [hresolved, cdms_build_eval, except_ok_bind]
  exact format_CDMS_transform_eval "CH3CN" 41 pfC0 cF0 cE0 cLG0 cDR0 cELO0 cGUP0
    cMW0 cTAG0 cQN0 cNM0 cLAB0

/-- The complete JPL example run with caller-supplied species and
partition function: `format_JPL` succeeds on the one-row response and
produces the canonical output table. -/
theorem jpl_run0 :
    format_JPL interp0 stJ0 jplT0 (some "X") false (some pf0)
      = .ok (jplOut "X" pf0 jplF0 jplE0 jplLG0 jplELO0 jplGUP0 jplQ10 jplQ20) :=
  format_JPL_supplied interp0 stJ0 "X" pf0 jplF0 jplE0 jplLG0 jplDR0 jplELO0
    jplGUP0 jplTAG0 jplQN0 jplQ10 jplQ20

/-- Claim C1: for every input `(logInt300, nu0_MHz, gUp, ELow, Q300)`,
`logint_to_EinsteinA` returns exactly the value of the four-step
specification formula (`Elow_K = wavenumberToKelvin(ELow)`,
`Eup_K = Elow_K + h*nu0*1e6/k_B`,
`Smu2 = 2.40251e4 * 10^logInt300 * Q300 / nu0 / (exp(-Elow_K/300) -
exp(-Eup_K/300))`, `A = 1.16395e-20 * nu0^3 * Smu2 / gUp`), with the
constants 2.40251e4 and 1.16395e-20 reproduced verbatim. -/
theorem claim_C1 (logint_300 nu0 gup Elow Q_300 : ℝ) :
    logint_to_EinsteinA logint_300 nu0 gup Elow Q_300
      = logIntensityToEinsteinA_spec logint_300 nu0 gup Elow Q_300 := rfl

/-- Claim C3: building a `PartitionFunction` discards every
(temperature, value) pair whose value is NaN, fails with the
insufficient-data error whenever fewer than 4 valid points remain after
filtering, and on success interpolates exactly the valid points. -/
theorem claim_C3 (interp : Interp) (species : String) (T : List ℝ)
    (Q : List (Option ℝ)) (ntrans : Option (List ℤ))
    (hlen : T.length = Q.length) :
    ((partition_valid_points T Q).length < 4 →
      PartitionFunction.build interp species T Q ntrans
        = .error Err.insufficientData)
    ∧ (∀ pfv, PartitionFunction.build interp species T Q ntrans = .ok pfv →
        4 ≤ (partition_valid_points T Q).length
        ∧ pfv.function = interp (partition_valid_points T Q)
        ∧ partition_valid_points T Q
            = (T.zip Q).filterMap (fun p => p.2.map fun q => (p.1, q))) := by
  constructor
  · intro hlt
    unfold PartitionFunction.build interp1d_cubic
    rw [if_pos hlt]
  · intro pfv hok
    unfold PartitionFunction.build interp1d_cubic at hok
    by_cases hlt : (partition_valid_points T Q).length < 4
    · rw [if_pos hlt] at hok
      exact absurd hok (by simp)
    · rw [if_neg hlt] at hok
      injection hok with hok
      exact ⟨le_of_not_lt hlt, by rw [← hok], rfl⟩

/-- Claim C3 witness: a concrete sample of 5 pairs with 2 NaN values has
3 valid points, and building a partition function from it fails with the
insufficient-data error. -/
theorem claim_C3_witness :
    ([10, 20, 30, 40, 50] : List ℝ).length
      = ([some 1, none, some 2, none, some 3] : List (Option ℝ)).length
    ∧ PartitionFunction.build interp0 "sp" [10, 20, 30, 40, 50]
        [some 1, none, some 2, none, some 3] none
        = .error Err.insufficientData :=
  ⟨rfl,
    (claim_C3 interp0 "sp" [10, 20, 30, 40, 50]
      [some 1, none, some 2, none, some 3] none rfl).1 (by decide)⟩

/-- Claim C4 counterexample: a raw JPL response with zero rows does not
normalize without error — when the species must be resolved from the
response, `np.unique(table["TAG"])[0]` on the empty tag column raises
`IndexError`, so no empty LineList is produced. -/
theorem claim_C4_counterexample :
    format_JPL interp0 stJ0 (stdJPLTable [] [] [] [] [] [] [] [] [] [])
      none false none = .error Err.indexError := rfl

/-- Claim C4 (amended): a zero-row raw response normalizes without error
to an explicit empty table only when the caller supplies both the
species and the partition function; when the species must be resolved
from the response, normalizing a zero-row response fails with an index
error at tag extraction. -/
theorem claim_C4 :
    (∀ (interp : Interp) (st : JPLSpeciesTable) (sp : String)
        (pfv : PartitionFunction),
      format_JPL interp st (stdJPLTable [] [] [] [] [] [] [] [] [] [])
          (some sp) false (some pfv)
        = .ok (jplOut sp pfv [] [] [] [] [] [] [])
      ∧ (jplOut sp pfv [] [] [] [] [] [] []).numRows = 0)
    ∧ (∀ (interp : Interp) (st : JPLSpeciesTable)
        (pfq : Option PartitionFunction),
      format_JPL interp st (stdJPLTable [] [] [] [] [] [] [] [] [] [])
          none false pfq
        = .error Err.indexError) :=
  ⟨fun interp st sp pfv =>
    ⟨format_JPL_supplied interp st sp pfv [] [] [] [] [] [] [] [] [] [], rfl⟩,
   fun _ _ _ => rfl⟩

/-- Claim C5 counterexample: supplying a species name without a
partition function to the orchestrator for the CDMS format does not
fail with a missing-partition-function error — `format_CDMS` takes
neither argument, the caller-supplied species is silently dropped, and
the call succeeds with the species resolved from the response. -/
theorem claim_C5_counterexample :
    parse_datafile interp0 stJ0 stC0 cdmsT0 "CDMS" (some "CALLER") none
      = .ok (cdmsOut "CH3CN" 41 pfC0 cF0 cE0 cLG0 cELO0 cGUP0 cNM0)
    ∧ parse_datafile interp0 stJ0 stC0 cdmsT0 "CDMS" (some "CALLER") none
      = parse_datafile interp0 stJ0 stC0 cdmsT0 "CDMS" none none := by
  constructor
  · show format_CDMS interp0 stC0 cdmsT0 false = _
    exact cdms_run0
  · rfl

/-- Claim C5 (amended): only the JPL-format normalizer accepts an
optional caller-supplied species name and partition function, and it
fails with the missing-partition-function error whenever a species is
supplied without a partition function; the CDMS-format normalizer
accepts neither, and the orchestrator silently drops caller-supplied
species and partition function for the CDMS format. -/
theorem claim_C5 :
    (∀ (interp : Interp) (st : JPLSpeciesTable) (tbl : Table) (sp : String)
        (nofreqerr : Bool),
      format_JPL interp st tbl (some sp) nofreqerr none
        = .error Err.missingPartitionFunction)
    ∧ (∀ (interp : Interp) (stJ : JPLSpeciesTable) (stC : CDMSSpeciesTable)
        (tbl : Table) (sp : Option String) (pfq : Option PartitionFunction),
      parse_datafile interp stJ stC tbl "CDMS" sp pfq
        = format_CDMS interp stC tbl false) := by
  constructor
  · intro interp st tbl sp nofreqerr
    unfold format_JPL jpl_resolve_stage
    cases tbl.hasMask <;> rfl
  · intro interp stJ stC tbl sp pfq
    rfl

/-- Claim C6: for every lookup key absent from the species master
table, both species-resolver variants — the JPL by-tag lookup and the
CDMS by-composite-key lookup — abort the normalization with the
species-not-found error, never returning a default species. -/
theorem claim_C6 :
    (∀ (interp : Interp) (st : JPLSpeciesTable)
        (freq err lgint dr elo gup qnfmt qn1 qn2 : List Cell)
        (n : ℕ) (t : ℤ) (pfq : Option PartitionFunction) (nofreqerr : Bool),
      ((t.natAbs : ℤ)) ∉ st.TAG →
      format_JPL interp st
        (stdJPLTable freq err lgint dr elo gup
          (List.replicate (n + 1) (Cell.int t)) qnfmt qn1 qn2)
        none nofreqerr pfq
        = .error Err.speciesNotFound)
    ∧ (∀ (interp : Interp) (st : CDMSSpeciesTable)
        (freq err lgaij dr elo gup qnfmt nameCol lab : List Cell)
        (n m : ℕ) (w t : ℤ) (nofreqerr : Bool),
      (w * 1000 + (t.natAbs : ℤ)) ∉ st.tag →
      format_CDMS interp st
        (stdCDMSTable freq err lgaij dr elo gup
          (List.replicate (n + 1) (Cell.int w))
          (List.replicate (m + 1) (Cell.int t)) qnfmt nameCol lab) nofreqerr
        = .error Err.speciesNotFound) := by
  constructor
  · intro interp st freq err lgint dr elo gup qnfmt qn1 qn2 n t pfq nofreqerr habs
    exact format_JPL_absent_tag interp st freq err lgint dr elo gup qnfmt qn1 qn2
      n t pfq nofreqerr habs
  · intro interp st freq err lgaij dr elo gup qnfmt nameCol lab n m w t nofreqerr
      habs
    rw [format_CDMS_key_lemma]
    exact format_CDMS_resolved_absent interp st _ w _ nofreqerr habs

/-- Claim C6 witness: resolving tag 1001 against a JPL master table
holding only tag 44009, and composite key 18005 against a CDMS master
table holding only key 41505, both fail with the species-not-found
error. -/
theorem claim_C6_witness :
    format_JPL interp0 stJ0
      (stdJPLTable jplF0 jplE0 jplLG0 jplDR0 jplELO0 jplGUP0
        (List.replicate 1 (Cell.int 1001)) jplQN0 jplQ10 jplQ20)
      none false none = .error Err.speciesNotFound
    ∧ format_CDMS interp0 stC0
      (stdCDMSTable cF0 cE0 cLG0 cDR0 cELO0 cGUP0
        (List.replicate 1 (Cell.int 18)) (List.replicate 1 (Cell.int 5))
        cQN0 cNM0 cLAB0) false = .error Err.speciesNotFound :=
  ⟨claim_C6.1 interp0 stJ0 jplF0 jplE0 jplLG0 jplDR0 jplELO0 jplGUP0 jplQN0
      jplQ10 jplQ20 0 1001 none false (by decide),
   claim_C6.2 interp0 stC0 cF0 cE0 cLG0 cDR0 cELO0 cGUP0 cQN0 cNM0 cLAB0
      0 0 18 5 false (by decide)⟩

/-- Claim C7: for a raw CDMS-format response carrying molecular weight
`w` and tag `t`, the by-composite-key resolver computes its lookup key
as exactly `w * 1000 + |t|` — the float computation
`int(w * 1e3 + abs(int(t)))` equals that integer — and `format_CDMS`
proceeds by matching that key against the master table's composite key
column. -/
theorem claim_C7 (interp : Interp) (st : CDMSSpeciesTable)
    (freq err lgaij dr elo gup qnfmt nameCol lab : List Cell)
    (n m : ℕ) (w t : ℤ) (nofreqerr : Bool) :
    pytrunc ((w : ℝ) * 1e3 + ((t.natAbs : ℤ) : ℝ)) = w * 1000 + (t.natAbs : ℤ)
    ∧ format_CDMS interp st
        (stdCDMSTable freq err lgaij dr elo gup
          (List.replicate (n + 1) (Cell.int w))
          (List.replicate (m + 1) (Cell.int t)) qnfmt nameCol lab) nofreqerr
      = format_CDMS_resolved interp st
          (stdCDMSTable freq err lgaij dr elo gup
            (List.replicate (n + 1) (Cell.int w))
            (List.replicate (m + 1) (Cell.int t)) qnfmt nameCol lab)
          w (w * 1000 + (t.natAbs : ℤ)) nofreqerr :=
  ⟨cdms_key_eval w (t.natAbs : ℤ),
   format_CDMS_key_lemma interp st freq err lgaij dr elo gup qnfmt nameCol lab
     n m w t nofreqerr⟩

/-- Claim C9: evaluating a partition function at a temperature with
verbose logging enabled returns exactly the same (finite real) value as
with it disabled — the verbose flag only controls the extrapolation
warning, which fires exactly when the temperature lies outside the
range of the stored temperature samples. -/
theorem claim_C9 (pf : PartitionFunction) (T : ℝ) (hne : pf.T ≠ []) :
    (pf.call T true).value = (pf.call T false).value
    ∧ (pf.call T true).value = pf.function T
    ∧ (pf.call T false).warned = false
    ∧ (pf.call T true).warned
        = (decide (T < np_nanmin pf.T) || decide (np_nanmax pf.T < T)) :=
  ⟨rfl, rfl, rfl, rfl⟩

/-- Claim C9 witness: the concrete partition function `pf1` evaluated at
temperature 100 (below its sampled range) returns the same value with
and without verbose logging. -/
theorem claim_C9_witness :
    (pf1.call 100 true).value = (pf1.call 100 false).value
    ∧ (pf1.call 100 true).value = pf1.function 100
    ∧ (pf1.call 100 false).warned = false
    ∧ (pf1.call 100 true).warned
        = (decide ((100 : ℝ) < np_nanmin pf1.T)
            || decide (np_nanmax pf1.T < (100 : ℝ))) :=
  claim_C9 pf1 100 (List.cons_ne_nil _ _)

/-- Claim C2: every successful JPL-format normalization computes the
`A_ul` column by applying `logint_to_EinsteinA` row-wise with `Q_300`
equal to the stored partition function evaluated at exactly 300 K,
while every successful CDMS-format normalization computes `A_ul` as
`10 ** LGAIJ` row-wise from the source's log intensity column, with no
partition-function dependence. -/
theorem claim_C2 :
    (∀ (interp : Interp) (st : JPLSpeciesTable)
        (freq err lgint dr elo gup tag qnfmt qn1 qn2 : List Cell)
        (sp : Option String) (pfq : Option PartitionFunction) (out : Table),
      format_JPL interp st
          (stdJPLTable freq err lgint dr elo gup tag qnfmt qn1 qn2)
          sp false pfq = .ok out →
      out.getColOpt "A_ul" = out.meta.partitionFunction.map (fun pfv =>
        zipWith4 (cellMap4 fun lg f g e =>
            logint_to_EinsteinA lg (f * 1e3) g e ((pfv.call 300 false).value))
          lgint (freq.map (cellMap fun x => x * 1e-3)) gup elo))
    ∧ (∀ (interp : Interp) (st : CDMSSpeciesTable)
        (freq err lgaij dr elo gup molwt tag qnfmt nameCol lab : List Cell)
        (out : Table),
      format_CDMS interp st
          (stdCDMSTable freq err lgaij dr elo gup molwt tag qnfmt nameCol lab)
          false = .ok out →
      out.getColOpt "A_ul" = some (lgaij.map (cellMap fun x => (10 : ℝ) ^ x))) := by
  constructor
  · intro interp st freq err lgint dr elo gup tag qnfmt qn1 qn2 sp pfq out hok
    obtain ⟨nm, pfv, _, hout⟩ := format_JPL_std_ok hok
    subst hout
    rfl
  · intro interp st freq err lgaij dr elo gup molwt tag qnfmt nameCol lab out hok
    obtain ⟨nm, mw, pfv, hout⟩ := format_CDMS_std_ok hok
    subst hout
    rfl

/-- Claim C2 witness: the concrete one-row JPL and CDMS runs exhibit
the `A_ul` formulas of the claim. -/
theorem claim_C2_witness :
    (jplOut "X" pf0 jplF0 jplE0 jplLG0 jplELO0 jplGUP0 jplQ10 jplQ20).getColOpt
        "A_ul"
      = (jplOut "X" pf0 jplF0 jplE0 jplLG0 jplELO0 jplGUP0 jplQ10
          jplQ20).meta.partitionFunction.map (fun pfv =>
          zipWith4 (cellMap4 fun lg f g e =>
              logint_to_EinsteinA lg (f * 1e3) g e ((pfv.call 300 false).value))
            jplLG0 (jplF0.map (cellMap fun x => x * 1e-3)) jplGUP0 jplELO0)
    ∧ (cdmsOut "CH3CN" 41 pfC0 cF0 cE0 cLG0 cELO0 cGUP0 cNM0).getColOpt "A_ul"
      = some (cLG0.map (cellMap fun x => (10 : ℝ) ^ x)) :=
  ⟨claim_C2.1 interp0 stJ0 jplF0 jplE0 jplLG0 jplDR0 jplELO0 jplGUP0 jplTAG0
      jplQN0 jplQ10 jplQ20 (some "X") (some pf0) _ jpl_run0,
   claim_C2.2 interp0 stC0 cF0 cE0 cLG0 cDR0 cELO0 cGUP0 cMW0 cTAG0 cQN0 cNM0
      cLAB0 _ cdms_run0⟩

/-- Claim C8: every successful normalization (either format) produces a
`Frequency` column whose every entry is the source `FREQ` value (in MHz)
multiplied by exactly 1e-3, and applies the same factor 1e-3 to the
retained `Frequency Error` column. -/
theorem claim_C8 :
    (∀ (interp : Interp) (st : JPLSpeciesTable)
        (freq err lgint dr elo gup tag qnfmt qn1 qn2 : List Cell)
        (sp : Option String) (pfq : Option PartitionFunction) (out : Table),
      format_JPL interp st
          (stdJPLTable freq err lgint dr elo gup tag qnfmt qn1 qn2)
          sp false pfq = .ok out →
      out.getColOpt "Frequency" = some (freq.map (cellMap fun x => x * 1e-3))
      ∧ out.getColOpt "Frequency Error"
          = some (err.map (cellMap fun x => x * 1e-3)))
    ∧ (∀ (interp : Interp) (st : CDMSSpeciesTable)
        (freq err lgaij dr elo gup molwt tag qnfmt nameCol lab : List Cell)
        (out : Table),
      format_CDMS interp st
          (stdCDMSTable freq err lgaij dr elo gup molwt tag qnfmt nameCol lab)
          false = .ok out →
      out.getColOpt "Frequency" = some (freq.map (cellMap fun x => x * 1e-3))
      ∧ out.getColOpt "Frequency Error"
          = some (err.map (cellMap fun x => x * 1e-3))) := by
  constructor
  · intro interp st freq err lgint dr elo gup tag qnfmt qn1 qn2 sp pfq out hok
    obtain ⟨nm, pfv, _, hout⟩ := format_JPL_std_ok hok
    subst hout
    exact ⟨rfl, rfl⟩
  · intro interp st freq err lgaij dr elo gup molwt tag qnfmt nameCol lab out hok
    obtain ⟨nm, mw, pfv, hout⟩ := format_CDMS_std_ok hok
    subst hout
    exact ⟨rfl, rfl⟩

/-- Claim C8 witness: the concrete one-row JPL and CDMS runs exhibit
the 1e-3 frequency and frequency-error conversions. -/
theorem claim_C8_witness :
    ((jplOut "X" pf0 jplF0 jplE0 jplLG0 jplELO0 jplGUP0 jplQ10 jplQ20).getColOpt
        "Frequency" = some (jplF0.map (cellMap fun x => x * 1e-3))
      ∧ (jplOut "X" pf0 jplF0 jplE0 jplLG0 jplELO0 jplGUP0 jplQ10
          jplQ20).getColOpt "Frequency Error"
        = some (jplE0.map (cellMap fun x => x * 1e-3)))
    ∧ ((cdmsOut "CH3CN" 41 pfC0 cF0 cE0 cLG0 cELO0 cGUP0 cNM0).getColOpt
        "Frequency" = some (cF0.map (cellMap fun x => x * 1e-3))
      ∧ (cdmsOut "CH3CN" 41 pfC0 cF0 cE0 cLG0 cELO0 cGUP0 cNM0).getColOpt
        "Frequency Error" = some (cE0.map (cellMap fun x => x * 1e-3))) :=
  ⟨claim_C8.1 interp0 stJ0 jplF0 jplE0 jplLG0 jplDR0 jplELO0 jplGUP0 jplTAG0
      jplQN0 jplQ10 jplQ20 (some "X") (some pf0) _ jpl_run0,
   claim_C8.2 interp0 stC0 cF0 cE0 cLG0 cDR0 cELO0 cGUP0 cMW0 cTAG0 cQN0 cNM0
      cLAB0 _ cdms_run0⟩

/-- Claim C10: both normalizers rewrite the caller's raw response table
in place (the returned table is the post-call state of the aliased
caller object): the fully-masked columns are exactly the ones the
cleanup removes, and after a successful run the caller's table has had
its format-specific columns removed, its columns renamed to the
canonical schema, and its frequency, intensity and energy values
overwritten — the whole post-state is the canonical output table. -/
theorem claim_C10 :
    (∀ t : Table, t.colNames.Nodup →
      (removeFullyMaskedColumns t).cols
        = t.cols.filter (fun p => !(allMasked p.2)))
    ∧ (∀ (interp : Interp) (st : JPLSpeciesTable)
        (freq err lgint dr elo gup tag qnfmt qn1 qn2 : List Cell)
        (sp : Option String) (pfq : Option PartitionFunction) (out : Table),
      format_JPL interp st
          (stdJPLTable freq err lgint dr elo gup tag qnfmt qn1 qn2)
          sp false pfq = .ok out →
      (∃ nm pfv, out = jplOut nm pfv freq err lgint elo gup qn1 qn2)
      ∧ out.colNames = ["Species", "Frequency", "Frequency Error", "A_ul",
          "E_up", "g_up", "QN\x27", "QN\x22"])
    ∧ (∀ (interp : Interp) (st : CDMSSpeciesTable)
        (freq err lgaij dr elo gup molwt tag qnfmt nameCol lab : List Cell)
        (out : Table),
      format_CDMS interp st
          (stdCDMSTable freq err lgaij dr elo gup molwt tag qnfmt nameCol lab)
          false = .ok out →
      (∃ nm mw pfv, out = cdmsOut nm mw pfv freq err lgaij elo gup nameCol)
      ∧ out.colNames = ["Species", "Frequency", "Frequency Error", "A_ul",
          "E_up", "g_up"]) := by
  refine ⟨?_, ?_, ?_⟩
  · intro t hnd
    show t.cols.filter _ = t.cols.filter _
    apply List.filter_congr
    intro p hp
    have hiff : decide (p.1 ∈ ((t.cols.filter (fun q => allMasked q.2)).map
        Prod.fst)) = allMasked p.2 := by
      by_cases hm : allMasked p.2 = true
      · simp only [hm, decide_eq_true_eq]
        exact List.mem_map.mpr ⟨p, List.mem_filter.mpr ⟨hp, hm⟩, rfl⟩
      · simp only [Bool.not_eq_true] at hm
        simp only [hm, decide_eq_false_iff_not]
        intro hmem
        obtain ⟨q, hq, hq1⟩ := List.mem_map.mp hmem
        obtain ⟨hqmem, hqmask⟩ := List.mem_filter.mp hq
        have hpq : q = p := List.inj_on_of_nodup_map hnd hqmem hp hq1
        rw [hpq] at hqmask
        simp [hm] at hqmask
    rw [hiff]
  · intro interp st freq err lgint dr elo gup tag qnfmt qn1 qn2 sp pfq out hok
    obtain ⟨nm, pfv, _, hout⟩ := format_JPL_std_ok hok
    subst hout
    exact ⟨⟨nm, pfv, rfl⟩, rfl⟩
  · intro interp st freq err lgaij dr elo gup molwt tag qnfmt nameCol lab out hok
    obtain ⟨nm, mw, pfv, hout⟩ := format_CDMS_std_ok hok
    subst hout
    exact ⟨⟨nm, mw, pfv, rfl⟩, rfl⟩

/-- Claim C10 witness: the cleanup on a concrete masked table removes
exactly its fully-masked column, and the concrete one-row runs leave the
caller's table with the canonical column schema. -/
theorem claim_C10_witness :
    (removeFullyMaskedColumns maskT0).cols
      = maskT0.cols.filter (fun p => !(allMasked p.2))
    ∧ (jplOut "X" pf0 jplF0 jplE0 jplLG0 jplELO0 jplGUP0 jplQ10
        jplQ20).colNames = ["Species", "Frequency", "Frequency Error", "A_ul",
        "E_up", "g_up", "QN\x27", "QN\x22"]
    ∧ (cdmsOut "CH3CN" 41 pfC0 cF0 cE0 cLG0 cELO0 cGUP0 cNM0).colNames
      = ["Species", "Frequency", "Frequency Error", "A_ul", "E_up", "g_up"] :=
  ⟨claim_C10.1 maskT0 (by decide),
   (claim_C10.2.1 interp0 stJ0 jplF0 jplE0 jplLG0 jplDR0 jplELO0 jplGUP0
      jplTAG0 jplQN0 jplQ10 jplQ20 (some "X") (some pf0) _ jpl_run0).2,
   (claim_C10.2.2 interp0 stC0 cF0 cE0 cLG0 cDR0 cELO0 cGUP0 cMW0 cTAG0 cQN0
      cNM0 cLAB0 _ cdms_run0).2⟩

end









